import Mathlib

/-!
# Bootstrap coordinator of the device OS application API (src/api/init.cpp)

The source file declares four globals and one routine, `csapp_startup`, a
straight-line sequence of seven statements that call collaborators defined
elsewhere (`connect_to_local`, the three driver constructors, `init_drivers`,
`setup`, `start_loop`).

The embedding is a trace semantics.  A run of `csapp_startup` is determined by
the outcome of each collaborator call (the value it returns, or the fact that
control never comes back from it); the routine is a program in a small
state-and-trace monad that records every call, every return and every write to
a global, together with the globals as they stand at that moment.
-/

namespace DeviceOS

/-- Channel handles.  `channel_t` is declared in resea.h, which is outside the
source; the code only initialises it from the literal `0` and stores a returned
value in it, so an integer type without arithmetic is all that is needed. -/
abbrev channel_t := Int

/-- The three driver singletons declared in init.cpp, in declaration order
(lines 6 to 8). -/
inductive Driver where
  | GPIO
  | Timer
  | Logging
  deriving DecidableEq, Repr

/-- The collaborators `csapp_startup` calls.  `ctor d` is the default
constructor of the class of driver `d` (`_GPIO()`, `_Timer()`, `_Logging()`). -/
inductive Callee where
  | connect_to_local (target : Int)
  | ctor (d : Driver)
  | init_drivers
  | setup
  | start_loop
  deriving DecidableEq, Repr

/-- Observable events of the bootstrap: control passes to a collaborator,
control comes back from it, and the two kinds of write to a global that the
routine performs itself. -/
inductive Event where
  | call (c : Callee)
  | ret (c : Callee)
  | write_channel_server (v : channel_t)
  | write_driver (d : Driver)
  deriving DecidableEq, Repr

/-- The globals of init.cpp (lines 5 to 8).  `Obj` stands for the value of a
driver object; the driver classes are declared in app.h, outside the source. -/
structure Globals (Obj : Type) where
  channel_server : channel_t
  GPIO : Obj
  Timer : Obj
  Logging : Obj
  deriving DecidableEq, Repr

/-- The globals after static initialisation: `channel_server = 0` (line 5) and
the three default-constructed driver objects whose values are `g`, `t`, `l`. -/
def Globals.initial {Obj : Type} (g t l : Obj) : Globals Obj :=
  { channel_server := 0, GPIO := g, Timer := t, Logging := l }

/-- One entry of the trace: the event and the globals at that moment (for a
write, the globals right after it). -/
structure Entry (Obj : Type) where
  event : Event
  globals : Globals Obj
  deriving DecidableEq, Repr

/-- Machine state while `csapp_startup` runs. -/
structure Machine (Obj : Type) where
  globals : Globals Obj
  trace : List (Entry Obj)
  deriving DecidableEq, Repr

/-- Outcomes of the collaborator calls in one run.  The collaborators are
defined outside the source (resea.h, app.h, loop.h) and are taken as
parameters.  `none` means that control never comes back from the call (the
collaborator aborts the process, blocks or loops for ever); `some v` means it
returns `v`.  `init_drivers` reports whether the pass succeeded for every
driver; the call statement discards that report.  What a collaborator does to
state of its own is not modelled, and, following section 5 of the spec (the
coordinator is the sole writer of the process-wide state during bootstrap), a
collaborator does not write the globals of init.cpp: the globals of the model
hold the values assigned by `csapp_startup` itself. -/
structure Collaborators (Obj : Type) where
  connect_to_local : Int → Option channel_t
  ctor : Driver → Option Obj
  init_drivers : Option Bool
  setup : Option Unit
  start_loop : Option Unit

/-- Computations of the coordinator: they transform the machine and either
yield a value or stop because a collaborator kept control. -/
def Exec (Obj α : Type) : Type := Machine Obj → Option α × Machine Obj

instance {Obj : Type} : Monad (Exec Obj) where
  pure a := fun m => (some a, m)
  bind x f := fun m =>
    match x m with
    | (some a, m1) => f a m1
    | (none, m1) => (none, m1)

/-- Append an event, with the current globals, to the trace. -/
def record {Obj : Type} (e : Event) (m : Machine Obj) : Machine Obj :=
  { m with trace := m.trace ++ [{ event := e, globals := m.globals }] }

/-- A call to collaborator `c` whose outcome in this run is `outcome`. -/
def call {Obj α : Type} (c : Callee) (outcome : Option α) : Exec Obj α := fun m =>
  let m1 := record (Event.call c) m
  match outcome with
  | none => (none, m1)
  | some a => (some a, record (Event.ret c) m1)

/-- The assignment `channel_server = v`. -/
def set_channel_server {Obj : Type} (v : channel_t) : Exec Obj Unit := fun m =>
  (some (), record (Event.write_channel_server v)
      { m with globals := { m.globals with channel_server := v } })

/-- The globals after the assignment of object `o` to the global of driver `d`. -/
def Globals.assign {Obj : Type} (gl : Globals Obj) (d : Driver) (o : Obj) : Globals Obj :=
  match d with
  | Driver.GPIO => { gl with GPIO := o }
  | Driver.Timer => { gl with Timer := o }
  | Driver.Logging => { gl with Logging := o }

/-- The assignment of a freshly constructed object to the global of driver `d`. -/
def set_driver {Obj : Type} (d : Driver) (o : Obj) : Exec Obj Unit := fun m =>
  (some (), record (Event.write_driver d) { m with globals := m.globals.assign d o })

/-- Embedding of `csapp_startup` (init.cpp lines 10 to 20), statement by
statement. -/
def csapp_startup {Obj : Type} (env : Collaborators Obj) : Exec Obj Unit := do
  -- channel_server = connect_to_local(1);
  let h ← call (Callee.connect_to_local 1) (env.connect_to_local 1)
  set_channel_server h
  -- Logging = _Logging();
  let l ← call (Callee.ctor Driver.Logging) (env.ctor Driver.Logging)
  set_driver Driver.Logging l
  -- GPIO  = _GPIO();
  let g ← call (Callee.ctor Driver.GPIO) (env.ctor Driver.GPIO)
  set_driver Driver.GPIO g
  -- Timer = _Timer();
  let t ← call (Callee.ctor Driver.Timer) (env.ctor Driver.Timer)
  set_driver Driver.Timer t
  -- init_drivers();
  let _ ← call Callee.init_drivers env.init_drivers
  -- setup();
  call Callee.setup env.setup
  -- start_loop();
  call Callee.start_loop env.start_loop

/-- A run of `csapp_startup` from globals `g0` with an empty trace. -/
def run {Obj : Type} (env : Collaborators Obj) (g0 : Globals Obj) : Option Unit × Machine Obj :=
  csapp_startup env { globals := g0, trace := [] }

/-- The events of a run, in order. -/
def events {Obj : Type} (env : Collaborators Obj) (g0 : Globals Obj) : List Event :=
  (run env g0).2.trace.map Entry.event

/-- The collaborator named by a call event. -/
def Event.callee? : Event → Option Callee
  | Event.call c => some c
  | _ => none

/-- The collaborator calls of a run, in order. -/
def calls {Obj : Type} (env : Collaborators Obj) (g0 : Globals Obj) : List Callee :=
  (events env g0).filterMap Event.callee?

/-- The driver whose constructor a callee is, if it is one. -/
def Callee.driver? : Callee → Option Driver
  | Callee.ctor d => some d
  | _ => none

/-- The constructor events of a run: the drivers whose constructor is called,
in order. -/
def constructions {Obj : Type} (env : Collaborators Obj) (g0 : Globals Obj) : List Driver :=
  (calls env g0).filterMap Callee.driver?

/-- Event `a` occurs in the list strictly before an occurrence of event `b`. -/
def occursBefore (a b : Event) : List Event → Bool
  | [] => false
  | e :: t => (decide (e = a) && decide (b ∈ t)) || occursBefore a b t

/-- The events that follow the first occurrence of event `a`. -/
def eventsAfter (a : Event) : List Event → List Event
  | [] => []
  | e :: t => if e = a then t else eventsAfter a t

/-- The value written, when the event is a write to `channel_server`. -/
def Event.channelWrite? : Event → Option channel_t
  | Event.write_channel_server v => some v
  | _ => none

/-- The values written to `channel_server` during a run, in order. -/
def channelWrites {Obj : Type} (env : Collaborators Obj) (g0 : Globals Obj) : List channel_t :=
  (events env g0).filterMap Event.channelWrite?

/-- The callee is `connect_to_local`, whatever its argument. -/
def Callee.isConnect : Callee → Bool
  | Callee.connect_to_local _ => true
  | _ => false

/-- The five phases of the bootstrap. -/
inductive Phase where
  | channel_acquisition
  | driver_construction
  | driver_initialization
  | application_setup
  | loop_handoff
  deriving DecidableEq, Repr

/-- The phase a collaborator call belongs to. -/
def Callee.phase : Callee → Phase
  | Callee.connect_to_local _ => Phase.channel_acquisition
  | Callee.ctor _ => Phase.driver_construction
  | Callee.init_drivers => Phase.driver_initialization
  | Callee.setup => Phase.application_setup
  | Callee.start_loop => Phase.loop_handoff

/-- Every collaborator call of the run returns. -/
def allReturn {Obj : Type} (env : Collaborators Obj) : Bool :=
  (env.connect_to_local 1).isSome && (env.ctor Driver.Logging).isSome &&
  (env.ctor Driver.GPIO).isSome && (env.ctor Driver.Timer).isSome &&
  env.init_drivers.isSome && env.setup.isSome && env.start_loop.isSome

/-- A normal boot: every collaborator returns, except `start_loop`, which keeps
control; the channel handle is 7. -/
def bootEnv : Collaborators Nat :=
  { connect_to_local := fun _ => some 7
    ctor := fun d => some (match d with
      | Driver.GPIO => 1
      | Driver.Timer => 2
      | Driver.Logging => 3)
    init_drivers := some true
    setup := some ()
    start_loop := none }

/-- A boot in which `start_loop` returns as well. -/
def returningEnv : Collaborators Nat :=
  { bootEnv with start_loop := some () }

/-- A boot in which `connect_to_local` returns the handle `h` (meant for a
failure value) and everything else is as in a normal boot. -/
def failedChannelEnv (h : channel_t) : Collaborators Nat :=
  { bootEnv with connect_to_local := fun _ => some h }

/-- A boot in which `init_drivers` returns and reports that a driver failed. -/
def failedInitEnv : Collaborators Nat :=
  { bootEnv with init_drivers := some false }

/-- Globals after static initialisation, with driver objects valued 0. -/
def bootGlobals : Globals Nat := Globals.initial 0 0 0

/-! ## Driver construction order (C1) -/

/-- C1, refuted as stated: in a normal boot the constructor events of
`csapp_startup` are not GPIO, Timer, Logging; the routine constructs Logging
first. -/
theorem C1_declaration_order_refuted :
    constructions bootEnv bootGlobals = [ Driver.Logging, Driver.GPIO, Driver.Timer] ∧
    constructions bootEnv bootGlobals ≠ [ Driver.GPIO, Driver.Timer, Driver.Logging] := by
  decide

/-- C1, amended: in every run the constructor events form an initial part of
Logging, GPIO, Timer, and in every run in which `connect_to_local` and the three
driver constructors return they are exactly Logging, GPIO, Timer, each driver
once. -/
theorem C1_construction_order {Obj : Type} (env : Collaborators Obj) (g0 : Globals Obj) :
    constructions env g0 <+: [ Driver.Logging, Driver.GPIO, Driver.Timer] ∧
    ((env.connect_to_local 1).isSome = true → (env.ctor Driver.Logging).isSome = true →
      (env.ctor Driver.GPIO).isSome = true → (env.ctor Driver.Timer).isSome = true →
      constructions env g0 = [ Driver.Logging, Driver.GPIO, Driver.Timer] ∧
      ∀ d : Driver, (constructions env g0).count d = 1) := by
  cases h1 : env.connect_to_local 1
  on_goal 2 => cases h2 : env.ctor Driver.Logging
  on_goal 3 => cases h3 : env.ctor Driver.GPIO
  on_goal 4 => cases h4 : env.ctor Driver.Timer
  on_goal 5 => cases h5 : env.init_drivers
  on_goal 6 => cases h6 : env.setup
  on_goal 7 => cases h7 : env.start_loop
  all_goals
    simp [constructions, calls, events, run, csapp_startup, Bind.bind, call, record,
      set_channel_server, set_driver, *, Event.callee?, Callee.driver?]
  all_goals
    intro d
    cases d <;> decide

/-- C1, amended, at a normal boot. -/
theorem C1_construction_order_witness :
    constructions bootEnv bootGlobals <+: [ Driver.Logging, Driver.GPIO, Driver.Timer] ∧
    constructions bootEnv bootGlobals = [ Driver.Logging, Driver.GPIO, Driver.Timer] ∧
    ∀ d : Driver, (constructions bootEnv bootGlobals).count d = 1 :=
  ⟨(C1_construction_order bootEnv bootGlobals).1,
   (C1_construction_order bootEnv bootGlobals).2 rfl rfl rfl rfl⟩

/-! ## Channel acquisition failure (C2) -/

/-- C2, refuted as stated: when `connect_to_local` returns the failure values 0
or -1 as the handle, `csapp_startup` still constructs the three drivers and calls
`init_drivers`, `setup` and `start_loop`. -/
theorem C2_failed_channel_still_boots :
    (constructions (failedChannelEnv 0) bootGlobals
        = [ Driver.Logging, Driver.GPIO, Driver.Timer] ∧
      Event.call Callee.init_drivers ∈ events (failedChannelEnv 0) bootGlobals ∧
      Event.call Callee.setup ∈ events (failedChannelEnv 0) bootGlobals ∧
      Event.call Callee.start_loop ∈ events (failedChannelEnv 0) bootGlobals) ∧
    (constructions (failedChannelEnv (-1)) bootGlobals
        = [ Driver.Logging, Driver.GPIO, Driver.Timer] ∧
      Event.call Callee.init_drivers ∈ events (failedChannelEnv (-1)) bootGlobals ∧
      Event.call Callee.setup ∈ events (failedChannelEnv (-1)) bootGlobals ∧
      Event.call Callee.start_loop ∈ events (failedChannelEnv (-1)) bootGlobals) := by
  decide

/-- C2, amended: if `connect_to_local` does not return, `csapp_startup` constructs
no driver, calls neither `init_drivers`, `setup` nor `start_loop`, and never
completes; if it returns a handle, whatever its value, the handle is stored and
the Logging constructor is called next, and when the later collaborators return
the calls are those of a full boot. -/
theorem C2_only_no_return_stops_boot {Obj : Type} (env : Collaborators Obj)
    (g0 : Globals Obj) :
    (env.connect_to_local 1 = none →
      constructions env g0 = [] ∧
      Event.call Callee.init_drivers ∉ events env g0 ∧
      Event.call Callee.setup ∉ events env g0 ∧
      Event.call Callee.start_loop ∉ events env g0 ∧
      (run env g0).1 = none) ∧
    (∀ h : channel_t, env.connect_to_local 1 = some h →
      (events env g0).take 4 =
        [Event.call (Callee.connect_to_local 1), Event.ret (Callee.connect_to_local 1),
         Event.write_channel_server h, Event.call (Callee.ctor Driver.Logging)] ∧
      ((env.ctor Driver.Logging).isSome = true → (env.ctor Driver.GPIO).isSome = true →
        (env.ctor Driver.Timer).isSome = true → env.init_drivers.isSome = true →
        env.setup.isSome = true →
        calls env g0 =
          [Callee.connect_to_local 1, Callee.ctor Driver.Logging, Callee.ctor Driver.GPIO,
           Callee.ctor Driver.Timer, Callee.init_drivers, Callee.setup,
           Callee.start_loop])) := by
  cases h1 : env.connect_to_local 1
  on_goal 2 => cases h2 : env.ctor Driver.Logging
  on_goal 3 => cases h3 : env.ctor Driver.GPIO
  on_goal 4 => cases h4 : env.ctor Driver.Timer
  on_goal 5 => cases h5 : env.init_drivers
  on_goal 6 => cases h6 : env.setup
  on_goal 7 => cases h7 : env.start_loop
  all_goals
    simp [constructions, calls, events, run, csapp_startup, Bind.bind, call, record,
      set_channel_server, set_driver, *, Event.callee?, Callee.driver?]

/-- C2, amended, at a boot in which `connect_to_local` returns 0: the hypothesis
of the second part holds and the boot is a full one. -/
theorem C2_only_no_return_stops_boot_witness :
    (failedChannelEnv 0).connect_to_local 1 = some 0 ∧
    (events (failedChannelEnv 0) bootGlobals).take 4 =
      [Event.call (Callee.connect_to_local 1), Event.ret (Callee.connect_to_local 1),
       Event.write_channel_server 0, Event.call (Callee.ctor Driver.Logging)] ∧
    calls (failedChannelEnv 0) bootGlobals =
      [Callee.connect_to_local 1, Callee.ctor Driver.Logging, Callee.ctor Driver.GPIO,
       Callee.ctor Driver.Timer, Callee.init_drivers, Callee.setup, Callee.start_loop] :=
  ⟨rfl,
   ((C2_only_no_return_stops_boot (failedChannelEnv 0) bootGlobals).2 0 rfl).1,
   ((C2_only_no_return_stops_boot (failedChannelEnv 0) bootGlobals).2 0 rfl).2
      rfl rfl rfl rfl rfl⟩

/-! ## The five phases (C3) -/

/-- C3: in every run in which all collaborators return, the collaborator calls
go through the five phases in order (channel acquisition, the three driver
constructions, driver initialization, application setup, loop handoff), none
skipped or repeated; the three constructions are those of GPIO, Timer and
Logging, each once; every constructor has returned and every driver global has
been assigned before `init_drivers` is called; and `csapp_startup` returns. -/
theorem C3_five_phases_in_order {Obj : Type} (env : Collaborators Obj) (g0 : Globals Obj)
    (hret : allReturn env = true) :
    (calls env g0).map Callee.phase =
      [Phase.channel_acquisition, Phase.driver_construction, Phase.driver_construction,
       Phase.driver_construction, Phase.driver_initialization, Phase.application_setup,
       Phase.loop_handoff] ∧
    (constructions env g0).Perm [ Driver.GPIO, Driver.Timer, Driver.Logging] ∧
    (calls env g0).count Callee.init_drivers = 1 ∧
    (∀ d : Driver,
      occursBefore (Event.ret (Callee.ctor d)) (Event.call Callee.init_drivers)
        (events env g0) = true ∧
      occursBefore (Event.write_driver d) (Event.call Callee.init_drivers)
        (events env g0) = true) ∧
    (run env g0).1 = some () := by
  cases h1 : env.connect_to_local 1
  on_goal 2 => cases h2 : env.ctor Driver.Logging
  on_goal 3 => cases h3 : env.ctor Driver.GPIO
  on_goal 4 => cases h4 : env.ctor Driver.Timer
  on_goal 5 => cases h5 : env.init_drivers
  on_goal 6 => cases h6 : env.setup
  on_goal 7 => cases h7 : env.start_loop
  all_goals simp [allReturn, *] at hret
  simp [constructions, calls, events, run, csapp_startup, Bind.bind, call, record,
    set_channel_server, set_driver, *, Event.callee?, Callee.driver?, Callee.phase,
    occursBefore]
  refine ⟨by decide, ?_⟩
  intro d
  cases d <;> simp

/-- C3 at a boot in which every collaborator returns. -/
theorem C3_five_phases_in_order_witness :
    allReturn returningEnv = true ∧
    (calls returningEnv bootGlobals).map Callee.phase =
      [Phase.channel_acquisition, Phase.driver_construction, Phase.driver_construction,
       Phase.driver_construction, Phase.driver_initialization, Phase.application_setup,
       Phase.loop_handoff] :=
  ⟨rfl, (C3_five_phases_in_order returningEnv bootGlobals rfl).1⟩

/-! ## The channel handle is in place before the drivers (C4) -/

/-- C4: when `connect_to_local` returns the handle `h`, the write of `h` to
`channel_server` precedes every constructor call and the calls of `init_drivers`
and `setup`, and at every moment from the first constructor call on (each
constructor call and return, each assignment of a driver global, the call and
return of `init_drivers`, the call of `setup`) `channel_server` holds `h`. -/
theorem C4_channel_server_set_before_drivers {Obj : Type} (env : Collaborators Obj)
    (g0 : Globals Obj) (h : channel_t) (hconn : env.connect_to_local 1 = some h) :
    (∀ e ∈ (run env g0).2.trace,
      (e.event = Event.call Callee.init_drivers ∨ e.event = Event.ret Callee.init_drivers ∨
        e.event = Event.call Callee.setup ∨
        ∃ d : Driver, e.event = Event.call (Callee.ctor d) ∨
          e.event = Event.ret (Callee.ctor d) ∨ e.event = Event.write_driver d) →
      e.globals.channel_server = h) ∧
    (∀ b : Event, b ∈ events env g0 →
      (b = Event.call Callee.init_drivers ∨ b = Event.call Callee.setup ∨
        ∃ d : Driver, b = Event.call (Callee.ctor d)) →
      occursBefore (Event.write_channel_server h) b (events env g0) = true) := by
  cases h2 : env.ctor Driver.Logging
  on_goal 2 => cases h3 : env.ctor Driver.GPIO
  on_goal 3 => cases h4 : env.ctor Driver.Timer
  on_goal 4 => cases h5 : env.init_drivers
  on_goal 5 => cases h6 : env.setup
  on_goal 6 => cases h7 : env.start_loop
  all_goals
    simp [events, run, csapp_startup, Bind.bind, call, record,
      set_channel_server, set_driver, hconn, *, occursBefore,
      Globals.assign]

/-- C4 at a normal boot, whose handle is 7: `init_drivers` and `setup` are
called, and `channel_server` is 7 at both moments. -/
theorem C4_channel_server_set_before_drivers_witness :
    bootEnv.connect_to_local 1 = some 7 ∧
    (∃ e ∈ (run bootEnv bootGlobals).2.trace,
      e.event = Event.call Callee.init_drivers ∧ e.globals.channel_server = 7) ∧
    (∃ e ∈ (run bootEnv bootGlobals).2.trace,
      e.event = Event.call Callee.setup ∧ e.globals.channel_server = 7) :=
  ⟨rfl,
   ⟨{ event := Event.call Callee.init_drivers,
      globals := { channel_server := 7, GPIO := 1, Timer := 2, Logging := 3 } },
    by decide, rfl,
    (C4_channel_server_set_before_drivers bootEnv bootGlobals 7 rfl).1 _ (by decide)
      (Or.inl rfl)⟩,
   ⟨{ event := Event.call Callee.setup,
      globals := { channel_server := 7, GPIO := 1, Timer := 2, Logging := 3 } },
    by decide, rfl,
    (C4_channel_server_set_before_drivers bootEnv bootGlobals 7 rfl).1 _ (by decide)
      (Or.inr (Or.inr (Or.inl rfl)))⟩⟩

/-! ## Application setup (C5) -/

/-- C7: in every run `connect_to_local` is called exactly once, with the
identifier 1; when that call returns `h`, `channel_server` is written exactly
once in the run, with `h`, after the return, and at the end of the run (wherever
it ends) `channel_server` is `h`, whatever the globals were at the start. -/
theorem C7_channel_server_written_once {Obj : Type} (env : Collaborators Obj)
    (g0 : Globals Obj) :
    (calls env g0).filter Callee.isConnect = [Callee.connect_to_local 1] ∧
    (∀ h : channel_t, env.connect_to_local 1 = some h →
      channelWrites env g0 = [h] ∧
      occursBefore (Event.ret (Callee.connect_to_local 1)) (Event.write_channel_server h)
        (events env g0) = true ∧
      (eventsAfter (Event.write_channel_server h) (events env g0)).all
        (fun e => e.channelWrite?.isNone) = true ∧
      (run env g0).2.globals.channel_server = h) := by
  cases h1 : env.connect_to_local 1
  on_goal 2 => cases h2 : env.ctor Driver.Logging
  on_goal 3 => cases h3 : env.ctor Driver.GPIO
  on_goal 4 => cases h4 : env.ctor Driver.Timer
  on_goal 5 => cases h5 : env.init_drivers
  on_goal 6 => cases h6 : env.setup
  on_goal 7 => cases h7 : env.start_loop
  all_goals
    simp [channelWrites, calls, events, run, csapp_startup, Bind.bind, call, record,
      set_channel_server, set_driver, *, occursBefore, eventsAfter, Event.callee?,
      Event.channelWrite?, Callee.isConnect, Globals.assign]

/-- C7 at a normal boot, whose handle is 7, from globals in which
`channel_server` is 0. -/
theorem C7_channel_server_written_once_witness :
    bootEnv.connect_to_local 1 = some 7 ∧ bootGlobals.channel_server = 0 ∧
    channelWrites bootEnv bootGlobals = [7] ∧
    (run bootEnv bootGlobals).2.globals.channel_server = 7 :=
  ⟨rfl, rfl, ((C7_channel_server_written_once bootEnv bootGlobals).2 7 rfl).1,
   ((C7_channel_server_written_once bootEnv bootGlobals).2 7 rfl).2.2.2⟩

/-! ## Driver initialization failure (C8) -/

/-- C8, refuted as stated: when `init_drivers` returns and reports that a driver
failed, `csapp_startup` still calls `setup` and then `start_loop`. -/
theorem C8_failed_init_still_runs_application :
    failedInitEnv.init_drivers = some false ∧
    Event.call Callee.setup ∈ events failedInitEnv bootGlobals ∧
    Event.call Callee.start_loop ∈ events failedInitEnv bootGlobals ∧
    events failedInitEnv bootGlobals = events bootEnv bootGlobals := by
  decide

/-- C8, amended: the report of `init_drivers` is discarded.  In every run in
which `init_drivers` returns, whatever it reports, `setup` is called once, right
after that return, and `start_loop` is called once if `setup` returns; the
events of the run are the same for a failure report as for a success report.
Only when `init_drivers` does not return are `setup` and `start_loop` not
invoked, and then the routine never completes. -/
theorem C8_init_report_discarded {Obj : Type} (env : Collaborators Obj)
    (g0 : Globals Obj) :
    (Event.ret Callee.init_drivers ∈ events env g0 →
      eventsAfter (Event.ret Callee.init_drivers) (events env g0)
        = Event.call Callee.setup ::
            eventsAfter (Event.call Callee.setup) (events env g0) ∧
      (events env g0).count (Event.call Callee.setup) = 1 ∧
      (env.setup.isSome = true →
        (events env g0).count (Event.call Callee.start_loop) = 1)) ∧
    (∀ ok : Bool, env.init_drivers = some ok →
      events env g0 = events { env with init_drivers := some (!ok) } g0) ∧
    (env.init_drivers = none →
      Event.call Callee.setup ∉ events env g0 ∧
      Event.call Callee.start_loop ∉ events env g0 ∧
      (run env g0).1 = none) := by
  cases h1 : env.connect_to_local 1
  on_goal 2 => cases h2 : env.ctor Driver.Logging
  on_goal 3 => cases h3 : env.ctor Driver.GPIO
  on_goal 4 => cases h4 : env.ctor Driver.Timer
  on_goal 5 => cases h5 : env.init_drivers
  on_goal 6 => cases h6 : env.setup
  on_goal 7 => cases h7 : env.start_loop
  all_goals
    simp [events, run, csapp_startup, Bind.bind, call, record,
      set_channel_server, set_driver, *, eventsAfter]

/-- C8, amended, at a boot in which `init_drivers` reports a failure: it
returns, and `setup` and `start_loop` are each called once. -/
theorem C8_init_report_discarded_witness :
    Event.ret Callee.init_drivers ∈ events failedInitEnv bootGlobals ∧
    failedInitEnv.setup.isSome = true ∧
    (events failedInitEnv bootGlobals).count (Event.call Callee.setup) = 1 ∧
    (events failedInitEnv bootGlobals).count (Event.call Callee.start_loop) = 1 :=
  ⟨by decide, rfl,
   ((C8_init_report_discarded failedInitEnv bootGlobals).1 (by decide)).2.1,
   ((C8_init_report_discarded failedInitEnv bootGlobals).1 (by decide)).2.2 rfl⟩

/-! ## The handle is never inspected (C9) -/

/-- C9: two runs from the same globals whose collaborators differ only in the
handle returned by `connect_to_local(1)` make the same collaborator calls, in
the same order (so the same driver constructions and the same calls of
`init_drivers`, `setup` and `start_loop`), and both return or both do not. -/
theorem C9_calls_independent_of_handle {Obj : Type} (env1 env2 : Collaborators Obj)
    (g0 : Globals Obj) (a b : channel_t)
    (hconn1 : env1.connect_to_local 1 = some a) (hconn2 : env2.connect_to_local 1 = some b)
    (hctor : env2.ctor = env1.ctor) (hinit : env2.init_drivers = env1.init_drivers)
    (hsetup : env2.setup = env1.setup) (hloop : env2.start_loop = env1.start_loop) :
    calls env1 g0 = calls env2 g0 ∧
    (calls env1 g0).filter (fun c => !c.isConnect)
      = (calls env2 g0).filter (fun c => !c.isConnect) ∧
    constructions env1 g0 = constructions env2 g0 ∧
    (run env1 g0).1 = (run env2 g0).1 := by
  cases h2 : env1.ctor Driver.Logging
  on_goal 2 => cases h3 : env1.ctor Driver.GPIO
  on_goal 3 => cases h4 : env1.ctor Driver.Timer
  on_goal 4 => cases h5 : env1.init_drivers
  on_goal 5 => cases h6 : env1.setup
  on_goal 6 => cases h7 : env1.start_loop
  all_goals
    simp [constructions, calls, events, run, csapp_startup, Bind.bind, call, record,
      set_channel_server, set_driver, *, Event.callee?]

/-- C9 at two boots that differ only in the handle, 7 against 0. -/
theorem C9_calls_independent_of_handle_witness :
    bootEnv.connect_to_local 1 = some 7 ∧ (failedChannelEnv 0).connect_to_local 1 = some 0 ∧
    calls bootEnv bootGlobals = calls (failedChannelEnv 0) bootGlobals :=
  ⟨rfl, rfl,
   (C9_calls_independent_of_handle bootEnv (failedChannelEnv 0) bootGlobals 7 0
      rfl rfl rfl rfl rfl rfl).1⟩

end DeviceOS
